import Mathlib

/-!
Shallow embedding of `src/main.py` (perso-lite-studio): a serverless HTTP
handler `generateAvatarVideo` that orchestrates a six-stage pipeline
(avatar download, TTS, lip-sync, result download, upload, metadata write).

External collaborators (object store, TTS service, Replicate, HTTP fetch,
Firestore) are modelled as oracles packaged in a `World`: each field gives
the outcome the corresponding external call would produce on this request.
The local filesystem is modelled by the existence flags of the three
temporary files the handler may create.  Machine behaviour of Python that
the handler relies on (truthiness, `dict.get`, `str.split`, `strftime`,
exception propagation) is embedded explicitly below.
-/

set_option autoImplicit false

/-- A parsed JSON value, as produced by `request.get_json(silent=True)`.
Mirrors Python values: `null` is Python `None`, `obj` a `dict` (modelled as
an association list; duplicate keys cannot arise from JSON parsing, where
the last occurrence wins, so lookup takes the last match). -/
inductive Json where
  | null
  | bool (b : Bool)
  | num (n : Int)
  | str (s : String)
  | arr (elems : List Json)
  | obj (fields : List (String × Json))
deriving Inhabited

/-- Python truthiness (`bool(x)`) of a JSON value: `None`, `False`, `0`,
`""`, `[]` and `\x7b\x7d` are falsy, everything else truthy. -/
def Json.truthy : Json → Bool
  | .null => false
  | .bool b => b
  | .num n => n != 0
  | .str s => s != ""
  | .arr elems => !elems.isEmpty
  | .obj fields => !fields.isEmpty

/-- Python `dict.get(key)` (without default): `some` of the stored value,
`none` when the key is absent.  Last binding wins, as in `json.loads`. -/
def Json.get? (j : Json) (key : String) : Option Json :=
  match j with
  | .obj fields => (fields.reverse.find? (fun p => p.1 == key)).map Prod.snd
  | _ => none

/-- Python type name, used in `AttributeError` messages. -/
def Json.pyTypeName : Json → String
  | .null => "NoneType"
  | .bool _ => "bool"
  | .num _ => "int"
  | .str _ => "str"
  | .arr _ => "list"
  | .obj _ => "dict"

mutual

/-- Python `repr()` of a JSON-shaped value (quotes are not re-escaped inside
strings; no claim evaluates `repr` on a string containing a quote). -/
def Json.pyRepr : Json → String
  | .null => "None"
  | .bool true => "True"
  | .bool false => "False"
  | .num n => toString n
  | .str s => "\x27" ++ s ++ "\x27"
  | .arr elems => "[" ++ String.intercalate ", " (Json.pyReprList elems) ++ "]"
  | .obj fields => "\x7b" ++ String.intercalate ", " (Json.pyReprFields fields) ++ "\x7d"

/-- Rendering of each element of a list value. -/
def Json.pyReprList : List Json → List String
  | [] => []
  | e :: es => Json.pyRepr e :: Json.pyReprList es

/-- Rendering of each `key: value` entry of a dict value. -/
def Json.pyReprFields : List (String × Json) → List String
  | [] => []
  | (k, v) :: fs => ("\x27" ++ k ++ "\x27: " ++ Json.pyRepr v) :: Json.pyReprFields fs

end

/-- Python `str()` as used by f-string interpolation: identity on strings,
`repr`-like on everything else. -/
def Json.pyStr : Json → String
  | .str s => s
  | v => v.pyRepr

/-- Characters before the first `'.'` of a character list. -/
def takeUntilDot : List Char → List Char
  | [] => []
  | c :: cs => if c = '.' then [] else c :: takeUntilDot cs

/-- Python `s.split('.')[0]`: the prefix of `s` before the first `'.'`
(all of `s` when no `'.'` occurs; `split` always returns a nonempty list,
so the indexing never fails). -/
def pySplitDotHead (s : String) : String :=
  String.mk (takeUntilDot s.data)

/-- A wall-clock instant, the fields `datetime.now()` exposes. -/
structure DateTime where
  year : Nat
  month : Nat
  day : Nat
  hour : Nat
  minute : Nat
  second : Nat
  microsecond : Nat
deriving Repr, DecidableEq

/-- Zero-pad the decimal rendering of `n` to width `w`, as `strftime`
directives do. -/
def padNum (w n : Nat) : String :=
  let s := toString n
  if s.length < w then String.mk (List.replicate (w - s.length) '0') ++ s else s

/-- Rendering `datetime.now().strftime('%Y%m%d%H%M%S%f')`, the execution-id fallback. -/
def strftimeExecId (t : DateTime) : String :=
  padNum 4 t.year ++ padNum 2 t.month ++ padNum 2 t.day ++
    padNum 2 t.hour ++ padNum 2 t.minute ++ padNum 2 t.second ++
    padNum 6 t.microsecond

/-- Rendering `datetime.now().strftime("%Y%m%d_%H%M%S")`, the upload-path timestamp. -/
def strftimeUpload (t : DateTime) : String :=
  padNum 4 t.year ++ padNum 2 t.month ++ padNum 2 t.day ++ "_" ++
    padNum 2 t.hour ++ padNum 2 t.minute ++ padNum 2 t.second

/-- Existence of the three temporary files of one invocation
(`/tmp/avatar_<id>.png`, `/tmp/output_<id>.mp3`, `/tmp/final_video_<id>.mp4`). -/
structure Fs where
  avatarExists : Bool
  audioExists : Bool
  videoExists : Bool
deriving Repr, DecidableEq

/-- Outcome of `blob.download_to_filename` for the avatar.  `leftoverFile`
records whether a (possibly incomplete) file was still materialised at the
destination path despite the failure. -/
inductive DownloadOutcome where
  | ok
  | notFound (leftoverFile : Bool)
  | err (msg : String) (leftoverFile : Bool)
deriving Repr, DecidableEq

/-- Outcome of `synthesize_speech` plus the local audio-file write. -/
inductive TtsOutcome where
  | ok
  | err (msg : String) (leftoverFile : Bool)
deriving Repr, DecidableEq

/-- Outcome of `replicate_client.run` (including the two local `open` calls
that precede it): `ok output` is a call that returns normally with `output`
(`none` models Python `None`, `some ""` an empty string); `replicateErr` a
raised `replicate.exceptions.ReplicateError`; `err` any other exception. -/
inductive LipSyncOutcome where
  | ok (output : Option String)
  | replicateErr (msg : String)
  | err (msg : String)
deriving Repr, DecidableEq

/-- Outcome of the `requests.get` streaming download of the result video:
`reqErr` a raised `requests.exceptions.RequestException` (includes the
`raise_for_status` path), `err` any other exception. -/
inductive FetchOutcome where
  | ok
  | reqErr (msg : String) (leftoverFile : Bool)
  | err (msg : String) (leftoverFile : Bool)
deriving Repr, DecidableEq

/-- Outcome of the storage upload: `ok url` returns `blob.public_url`. -/
inductive UploadOutcome where
  | ok (url : String)
  | err (msg : String)
deriving Repr, DecidableEq

/-- Outcome of constructing the TTS and Replicate API clients. -/
inductive InitOutcome where
  | ok
  | err (msg : String)
deriving Repr, DecidableEq

/-- Outcome of the Firestore `collection(...).add(...)` call. -/
inductive FirestoreOutcome where
  | ok
  | err (msg : String)
deriving Repr, DecidableEq

/-- Everything outside the handler that can influence one invocation:
environment, request, clocks, and the behaviour of every external
collaborator (each free to fail or raise arbitrarily). -/
structure World where
  /-- Value of `os.environ.get("REPLICATE_API_TOKEN")`. -/
  replicateApiToken : Option String
  /-- Value of `request.get_json(silent=True)`: `none` when the body is not JSON. -/
  requestJson : Option Json
  /-- Value of `request.headers.get('Function-Execution-Id')`. -/
  headerExecutionId : Option String
  /-- Value of `datetime.now()` at the execution-id fallback. -/
  nowAtStart : DateTime
  /-- Value of `datetime.now()` at upload-path construction. -/
  nowAtUpload : DateTime
  clientInit : InitOutcome
  download : DownloadOutcome
  tts : TtsOutcome
  lipSync : LipSyncOutcome
  fetchVideo : FetchOutcome
  upload : UploadOutcome
  firestore : FirestoreOutcome
  /-- whether `os.remove` raises on each temp file during cleanup. -/
  rmAvatarFails : Bool
  rmAudioFails : Bool
  rmVideoFails : Bool

/-- Python truthiness of an `os.environ.get` result (`None` or a string). -/
def strOptTruthy : Option String → Bool
  | none => false
  | some s => s != ""

/-- An exception escaping one of the helper functions into the handler body:
`opFailure` is the custom `OperationFailure(message, status_code)`, `other`
any other `Exception`. -/
inductive Exc where
  | opFailure (msg : String) (status : Nat)
  | other (msg : String)
deriving Repr, DecidableEq

/-- Embedding of `download_avatar_image`: success writes the temp avatar file; `NotFound`
maps to an `OperationFailure` 404 naming the path, any other exception to an
`OperationFailure` 500. -/
def download_avatar_image (o : DownloadOutcome) (avatar_storage_path : String)
    (fs : Fs) : Except Exc Unit × Fs :=
  match o with
  | .ok => (.ok (), { fs with avatarExists := true })
  | .notFound leftover =>
      (.error (.opFailure ("Avatar image not found at \x27" ++ avatar_storage_path ++ "\x27.") 404),
       { fs with avatarExists := fs.avatarExists || leftover })
  | .err m leftover =>
      (.error (.opFailure ("Failed to download avatar image. Server error: " ++ m) 500),
       { fs with avatarExists := fs.avatarExists || leftover })

/-- Embedding of `generate_tts_audio`: success writes the temp audio file; any exception
maps to an `OperationFailure` 500. -/
def generate_tts_audio (o : TtsOutcome) (fs : Fs) : Except Exc Unit × Fs :=
  match o with
  | .ok => (.ok (), { fs with audioExists := true })
  | .err m leftover =>
      (.error (.opFailure ("TTS generation failed: " ++ m) 500),
       { fs with audioExists := fs.audioExists || leftover })

/-- Embedding of `perform_lip_sync`: a falsy returned output raises an `OperationFailure`
inside the `try`, which the function\x27s own generic `except Exception`
clause catches and re-wraps (status stays 500); a `ReplicateError` and any
other exception map to distinct `OperationFailure` 500 messages. -/
def perform_lip_sync (o : LipSyncOutcome) : Except Exc String :=
  match o with
  | .ok output =>
      match output with
      | none =>
          .error (.opFailure
            ("Lip-sync process failed: " ++ "Lip-sync process did not return a video URL from Replicate.") 500)
      | some u =>
          if u == "" then
            .error (.opFailure
              ("Lip-sync process failed: " ++ "Lip-sync process did not return a video URL from Replicate.") 500)
          else .ok u
  | .replicateErr m =>
      .error (.opFailure ("Lip-sync generation failed due to Replicate API error: " ++ m) 500)
  | .err m =>
      .error (.opFailure ("Lip-sync process failed: " ++ m) 500)

/-- Embedding of `download_replicate_video`: success writes the temp video file; a
`RequestException` maps to an `OperationFailure` 500, while any other
exception escapes the helper uncaught (to the handler\x27s catch-all). -/
def download_replicate_video (o : FetchOutcome) (fs : Fs) : Except Exc Unit × Fs :=
  match o with
  | .ok => (.ok (), { fs with videoExists := true })
  | .reqErr m leftover =>
      (.error (.opFailure ("Failed to download generated video from Replicate: " ++ m) 500),
       { fs with videoExists := fs.videoExists || leftover })
  | .err m leftover =>
      (.error (.other m), { fs with videoExists := fs.videoExists || leftover })

/-- Embedding of `upload_to_firebase_storage`: returns `blob.public_url`; any exception
maps to an `OperationFailure` 500. -/
def upload_to_firebase_storage (o : UploadOutcome) : Except Exc String :=
  match o with
  | .ok url => .ok url
  | .err m => .error (.opFailure ("Failed to upload video to Firebase Storage: " ++ m) 500)

/-- The document passed to `collection("video_creations").add(...)`. -/
structure MetaDoc where
  collection : String
  userId : Json
  videoUrl : String
  scriptText : Json
  avatarId : Json
  /-- Field `createdAt` is the `firestore.SERVER_TIMESTAMP` sentinel. -/
  createdAtServerTimestamp : Bool
  status : String

/-- Embedding of `save_metadata_to_firestore`: the add is always attempted with these
fields; a failure is only logged (both branches return normally). -/
def save_metadata_to_firestore (o : FirestoreOutcome) (user_id : Json)
    (video_url : String) (script_text : Json) (avatar_id : Json) : MetaDoc :=
  match o with
  | .ok =>
      { collection := "video_creations", userId := user_id, videoUrl := video_url,
        scriptText := script_text, avatarId := avatar_id,
        createdAtServerTimestamp := true, status := "completed" }
  | .err _ =>
      { collection := "video_creations", userId := user_id, videoUrl := video_url,
        scriptText := script_text, avatarId := avatar_id,
        createdAtServerTimestamp := true, status := "completed" }

/-- Which external collaborator calls were made during the invocation. -/
structure Calls where
  download : Bool
  tts : Bool
  lipSync : Bool
  fetchVideo : Bool
  upload : Bool
  firestore : Bool
deriving Repr, DecidableEq

/-- No collaborator call made yet. -/
def Calls.none : Calls :=
  { download := false, tts := false, lipSync := false,
    fetchVideo := false, upload := false, firestore := false }

/-- A response body: either the plain-text message of an error return, or
the success dict `\x7b"message": ..., "video_url": ...\x7d`. -/
inductive Body where
  | text (msg : String)
  | payload (message : String) (video_url : String)
deriving Repr, DecidableEq

/-- An HTTP response `(body, status)` as returned by the handler. -/
structure Resp where
  body : Body
  status : Nat
deriving Repr, DecidableEq

/-- State threaded through the pipeline: temp-file existence, calls made,
the metadata document attempted (if any) and the storage path passed to the
upload (if reached). -/
structure PState where
  fs : Fs
  calls : Calls
  meta : Option MetaDoc
  uploadPath : Option String

/-- The body of the handler\x27s `try` block (steps 1-6), threading the
pipeline state.  Returns the success response or the exception that escaped
a step. -/
def runPipeline (w : World) (script_text avatar_id user_id : Json)
    (st0 : PState) : Except Exc Resp × PState :=
  -- Step 1: download avatar image
  let avatar_storage_path := "avatars/default/" ++ avatar_id.pyStr
  let st1 := { st0 with calls := { st0.calls with download := true } }
  match download_avatar_image w.download avatar_storage_path st1.fs with
  | (.error e, fs) => (.error e, { st1 with fs := fs })
  | (.ok _, fs1) =>
  -- Step 2: generate TTS audio
  let st2 := { st1 with fs := fs1, calls := { st1.calls with tts := true } }
  match generate_tts_audio w.tts st2.fs with
  | (.error e, fs) => (.error e, { st2 with fs := fs })
  | (.ok _, fs2) =>
  -- Step 3: lip sync via Replicate
  let st3 := { st2 with fs := fs2, calls := { st2.calls with lipSync := true } }
  match perform_lip_sync w.lipSync with
  | .error e => (.error e, st3)
  | .ok _replicate_video_url =>
  -- Step 4: download the generated video
  let st4 := { st3 with calls := { st3.calls with fetchVideo := true } }
  match download_replicate_video w.fetchVideo st4.fs with
  | (.error e, fs) => (.error e, { st4 with fs := fs })
  | (.ok _, fs4) =>
  -- Step 5: upload to Firebase Storage.  `avatar_id.split('.')` requires a
  -- Python str; on any other (truthy) value it raises an AttributeError,
  -- which the handler\x27s catch-all turns into a generic 500.
  let st5 := { st4 with fs := fs4 }
  match avatar_id with
  | .str s =>
      let timestamp := strftimeUpload w.nowAtUpload
      let base_avatar_id := pySplitDotHead s
      let storage_video_filename := timestamp ++ "_" ++ base_avatar_id ++ ".mp4"
      let final_storage_path := "generated_videos/" ++ user_id.pyStr ++ "/" ++ storage_video_filename
      let st6 := { st5 with calls := { st5.calls with upload := true }, uploadPath := some final_storage_path }
      match upload_to_firebase_storage w.upload with
      | .error e => (.error e, st6)
      | .ok final_video_storage_url =>
      if final_video_storage_url == "" then
        -- safeguard at src/main.py:196-197
        (.error (.opFailure "Failed to get video URL after upload, though no exception was raised." 500), st6)
      else
        -- Step 6: save metadata (best-effort, never raises)
        let doc := save_metadata_to_firestore w.firestore user_id
          final_video_storage_url script_text avatar_id
        let st7 := { st6 with calls := { st6.calls with firestore := true }, meta := some doc }
        (.ok { body := .payload "Video generated successfully!" final_video_storage_url,
               status := 200 }, st7)
  | other =>
      (.error (.other ("\x27" ++ other.pyTypeName ++ "\x27 object has no attribute \x27split\x27")), st5)

/-- The handler\x27s two `except` clauses: an `OperationFailure` becomes
`(str(e), e.status_code)`; any other exception becomes the generic 500
without leaking the underlying message. -/
def exceptToResponse : Except Exc Resp → Except String Resp
  | .ok resp => .ok resp
  | .error (.opFailure m s) => .ok { body := .text m, status := s }
  | .error (.other _) => .ok { body := .text "An unexpected server error occurred.", status := 500 }

/-- The `finally` block: for each temp file that exists, attempt
`os.remove`; a raising remove is logged and leaves the file in place. -/
def cleanupTempFiles (w : World) (fs : Fs) : Fs :=
  { avatarExists := fs.avatarExists && w.rmAvatarFails,
    audioExists := fs.audioExists && w.rmAudioFails,
    videoExists := fs.videoExists && w.rmVideoFails }

/-- Observable result of one invocation: the handler\x27s return value (or,
in `Except.error`, an exception escaping the handler uncaught), the final
temp-file state, the collaborator calls made, the metadata document
attempted and the upload storage path used. -/
structure RunResult where
  result : Except String Resp
  fs : Fs
  calls : Calls
  meta : Option MetaDoc
  uploadPath : Option String

/-- The HTTP handler `generateAvatarVideo` of src/main.py, as a function of
the world (environment, request, collaborator behaviours) and the initial
temp-file state. -/
def generateAvatarVideo (w : World) (fs0 : Fs) : RunResult :=
  -- REPLICATE_API_TOKEN check (before any validation)
  if !strOptTruthy w.replicateApiToken then
    { result := .ok { body := .text "Configuration error: Replicate API token not found.", status := 500 },
      fs := fs0, calls := Calls.none, meta := none, uploadPath := none }
  else
  -- request.get_json(silent=True); falsy payloads rejected
  match w.requestJson with
  | none =>
      { result := .ok { body := .text "Invalid request: No JSON payload.", status := 400 },
        fs := fs0, calls := Calls.none, meta := none, uploadPath := none }
  | some request_json =>
  if !request_json.truthy then
    { result := .ok { body := .text "Invalid request: No JSON payload.", status := 400 },
      fs := fs0, calls := Calls.none, meta := none, uploadPath := none }
  else
  -- request_json.get(...) is only valid on a dict; on any other truthy
  -- JSON value Python raises an uncaught AttributeError here.
  match request_json with
  | .obj fields =>
      let jd := Json.obj fields
      let script_text := (jd.get? "script_text").getD .null
      let avatar_id := (jd.get? "avatar_id").getD .null
      let user_id := (jd.get? "user_id").getD (.str "test_user")
      if !script_text.truthy then
        { result := .ok { body := .text "Invalid request: \x27script_text\x27 cannot be empty or is missing.", status := 400 },
          fs := fs0, calls := Calls.none, meta := none, uploadPath := none }
      else if !avatar_id.truthy then
        { result := .ok { body := .text "Invalid request: \x27avatar_id\x27 cannot be empty or is missing.", status := 400 },
          fs := fs0, calls := Calls.none, meta := none, uploadPath := none }
      else
      -- API client construction
      match w.clientInit with
      | .err _ =>
          { result := .ok { body := .text "Failed to initialize necessary API clients.", status := 500 },
            fs := fs0, calls := Calls.none, meta := none, uploadPath := none }
      | .ok =>
      -- execution id (headers.get default is evaluated eagerly; same value)
      let _execution_id := w.headerExecutionId.getD (strftimeExecId w.nowAtStart)
      -- try/except/finally around the six-step pipeline
      let stepOut := runPipeline w script_text avatar_id user_id
        { fs := fs0, calls := Calls.none, meta := none, uploadPath := none }
      let res := stepOut.1
      let st := stepOut.2
      { result := exceptToResponse res, fs := cleanupTempFiles w st.fs, calls := st.calls,
        meta := st.meta, uploadPath := st.uploadPath }
  | j =>
      -- uncaught AttributeError: no cleanup runs (the try was never entered)
      { result := .error ("\x27" ++ j.pyTypeName ++ "\x27 object has no attribute \x27get\x27"),
        fs := fs0, calls := Calls.none, meta := none, uploadPath := none }

/-- Truthiness test the handler applies to `clientInit`-style outcomes. -/
def InitOutcome.isOk : InitOutcome → Bool
  | .ok => true
  | .err _ => false

/-- Whether the parsed body passes the handler\x27s three validation checks
(truthy payload, truthy `script_text`, truthy `avatar_id`). -/
def validatedBody : Option Json → Bool
  | some (Json.obj fields) =>
      (Json.obj fields).truthy
        && (((Json.obj fields).get? "script_text").getD Json.null).truthy
        && (((Json.obj fields).get? "avatar_id").getD Json.null).truthy
  | _ => false

/-- Whether an invocation gets past the token check, validation and client
construction, i.e. enters the `try` block (so the `finally` cleanup runs). -/
def reachesPipeline (w : World) : Bool :=
  strOptTruthy w.replicateApiToken && validatedBody w.requestJson && w.clientInit.isOk

/-- Shape invariant of pipeline outcomes: a normal return is the 200 payload
response, an `OperationFailure` carries status 404 or 500, and any other
exception is unconstrained (the catch-all maps it to 500). -/
def pipeOutcomeOk : Except Exc Resp → Bool
  | .ok r =>
      (match r.body with
       | .payload _ _ => r.status == 200
       | .text _ => false)
  | .error (.opFailure _ s) => s == 404 || s == 500
  | .error (.other _) => true

/-- The outcome shape claimed by the spec: the handler returns (never
raises), and the return is either a 200 payload with message and video_url
or a plain-text error with status 400, 404 or 500. -/
def isSingleValidOutcome : Except String Resp → Bool
  | .error _ => false
  | .ok r =>
      match r.body with
      | .payload _ _ => r.status == 200
      | .text _ => r.status == 400 || r.status == 404 || r.status == 500

/-- Whether the request body avoids the one uncovered case: a body that
parses to a truthy JSON value that is not an object. -/
def bodyObjWhenTruthy : Option Json → Bool
  | none => true
  | some j => !j.truthy || (match j with | .obj _ => true | _ => false)

/-- A fixed instant used by the concrete scenarios. -/
def sampleDateTime : DateTime := ⟨2025, 6, 1, 12, 30, 45, 123456⟩

/-- Request fields of the concrete scenario of the spec (section 8). -/
def sampleFields (av : String) : List (String × Json) :=
  [("script_text", .str "Hello world"), ("avatar_id", .str av), ("user_id", .str "u1")]

/-- A world where the token is set, the request is valid and every external
collaborator succeeds. -/
def okWorld : World :=
  { replicateApiToken := some "tok",
    requestJson := some (.obj (sampleFields "alice.png")),
    headerExecutionId := some "exec-1",
    nowAtStart := sampleDateTime,
    nowAtUpload := sampleDateTime,
    clientInit := .ok,
    download := .ok,
    tts := .ok,
    lipSync := .ok (some "https://replicate.delivery/out.mp4"),
    fetchVideo := .ok,
    upload := .ok "https://storage.googleapis.com/b/final.mp4",
    firestore := .ok,
    rmAvatarFails := false,
    rmAudioFails := false,
    rmVideoFails := false }

/-- Initial state with no temp files present. -/
def emptyFs : Fs := ⟨false, false, false⟩

/-- A request whose body parses to the truthy JSON list `[1]`. -/
def listBodyWorld : World := { okWorld with requestJson := some (.arr [.num 1]) }

/-- The ghost scenario: the avatar object is absent from the store. -/
def ghostWorld : World := { okWorld with requestJson := some (.obj (sampleFields "ghost.png")), download := .notFound false }

/-- A deployment without the REPLICATE_API_TOKEN secret, and a malformed body. -/
def noTokenBadBodyWorld : World := { okWorld with replicateApiToken := none, requestJson := none }

/-- A world where the lip-sync call returns normally but with `None`. -/
def noOutputWorld : World := { okWorld with lipSync := .ok none }

/-- A request whose body is the empty JSON object. -/
def emptyBodyWorld : World := { okWorld with requestJson := some (.obj []) }

/-- A request whose body lacks the `script_text` key. -/
def missingScriptWorld : World := { okWorld with requestJson := some (.obj [("avatar_id", Json.str "alice.png")]) }

/-- A world where only the Firestore metadata write fails. -/
def firestoreDownWorld : World := { okWorld with firestore := .err "firestore down" }

/-- Lookup succeeding on an object means its field list is nonempty. -/
theorem Json.get?_obj_ne_nil {kvs : List (String × Json)} {k : String} {v : Json}
    (h : Json.get? (Json.obj kvs) k = some v) : kvs.isEmpty = false := by
  cases kvs with
  | nil => simp [Json.get?] at h
  | cons a l => simp [List.isEmpty]

/-- Whatever the collaborators do, the pipeline body ends in the 200 payload,
an `OperationFailure` with status 404 or 500, or some other exception. -/
theorem runPipeline_outcome (w : World) (s a u : Json) (st : PState) :
    pipeOutcomeOk (runPipeline w s a u st).1 = true := by
  obtain ⟨tokf, bodyf, hdr, n1, n2, ci, dl, tt, ls, fv, up, fo, ra, rb, rc⟩ := w
  cases dl with
  | notFound l => rfl
  | err m l => rfl
  | ok =>
  cases tt with
  | err m l => rfl
  | ok =>
  cases ls with
  | replicateErr m => rfl
  | err m => rfl
  | ok out =>
  cases out with
  | none => rfl
  | some rurl =>
  by_cases hr : rurl = ""
  · simp [runPipeline, download_avatar_image, generate_tts_audio, perform_lip_sync,
      pipeOutcomeOk, hr]
  · cases fv with
    | reqErr m l =>
        simp [runPipeline, download_avatar_image, generate_tts_audio, perform_lip_sync,
          download_replicate_video, pipeOutcomeOk, hr]
    | err m l =>
        simp [runPipeline, download_avatar_image, generate_tts_audio, perform_lip_sync,
          download_replicate_video, pipeOutcomeOk, hr]
    | ok =>
    cases a with
    | str av =>
        cases up with
        | err m =>
            simp [runPipeline, download_avatar_image, generate_tts_audio, perform_lip_sync,
              download_replicate_video, upload_to_firebase_storage, pipeOutcomeOk, hr]
        | ok url =>
            by_cases hu : url = "" <;>
              simp [runPipeline, download_avatar_image, generate_tts_audio, perform_lip_sync,
                download_replicate_video, upload_to_firebase_storage,
                save_metadata_to_firestore, pipeOutcomeOk, hr, hu]
    | null =>
        simp [runPipeline, download_avatar_image, generate_tts_audio, perform_lip_sync,
          download_replicate_video, pipeOutcomeOk, hr]
    | bool b =>
        simp [runPipeline, download_avatar_image, generate_tts_audio, perform_lip_sync,
          download_replicate_video, pipeOutcomeOk, hr]
    | num n =>
        simp [runPipeline, download_avatar_image, generate_tts_audio, perform_lip_sync,
          download_replicate_video, pipeOutcomeOk, hr]
    | arr es =>
        simp [runPipeline, download_avatar_image, generate_tts_audio, perform_lip_sync,
          download_replicate_video, pipeOutcomeOk, hr]
    | obj fs =>
        simp [runPipeline, download_avatar_image, generate_tts_audio, perform_lip_sync,
          download_replicate_video, pipeOutcomeOk, hr]

/-- Mapping a well-shaped pipeline outcome through the `except` clauses
yields a single valid HTTP outcome. -/
theorem exceptToResponse_ok (r : Except Exc Resp) (h : pipeOutcomeOk r = true) :
    isSingleValidOutcome (exceptToResponse r) = true := by
  rcases r with (⟨m, stc⟩ | m) | ⟨b, stc⟩
  · simp [pipeOutcomeOk] at h
    rcases h with h | h <;> simp [exceptToResponse, isSingleValidOutcome, h]
  · simp [exceptToResponse, isSingleValidOutcome]
  · cases b with
    | text m => simp [pipeOutcomeOk] at h
    | payload m v =>
        simp [pipeOutcomeOk] at h
        simp [exceptToResponse, isSingleValidOutcome, h]

/-- C1 (amended): for every request whose body is absent, unparseable, falsy
JSON, or a JSON object, and for any behaviour of the external collaborators
(including arbitrary exceptions), the handler returns exactly one outcome:
either a 200 response whose body carries a message and a video_url, or an
error response whose status is 400, 404 or 500.  (The amendment excludes
bodies parsing to a truthy non-object JSON value, on which the handler
raises an uncaught AttributeError instead of returning; see the
counterexample.) -/
theorem c1_single_outcome (w : World) (fs0 : Fs)
    (hbody : bodyObjWhenTruthy w.requestJson = true) :
    isSingleValidOutcome (generateAvatarVideo w fs0).result = true := by
  obtain ⟨tokf, bodyf, hdr, n1, n2, ci, dl, tt, ls, fv, up, fo, ra, rb, rc⟩ := w
  simp only at hbody
  cases h1 : strOptTruthy tokf with
  | false => simp [generateAvatarVideo, h1, isSingleValidOutcome]
  | true =>
  cases bodyf with
  | none => simp [generateAvatarVideo, h1, isSingleValidOutcome]
  | some j =>
  cases h2 : j.truthy with
  | false => simp [generateAvatarVideo, h1, h2, isSingleValidOutcome]
  | true =>
  cases j with
  | obj kvs =>
      cases h3 : (((Json.obj kvs).get? "script_text").getD Json.null).truthy with
      | false => simp [generateAvatarVideo, h1, h2, h3, isSingleValidOutcome]
      | true =>
      cases h4 : (((Json.obj kvs).get? "avatar_id").getD Json.null).truthy with
      | false => simp [generateAvatarVideo, h1, h2, h3, h4, isSingleValidOutcome]
      | true =>
      cases ci with
      | err m => simp [generateAvatarVideo, h1, h2, h3, h4, isSingleValidOutcome]
      | ok =>
          simp only [generateAvatarVideo, h1, h2, h3, h4, Bool.not_true, Bool.not_false,
            if_false, if_true]
          exact exceptToResponse_ok _ (runPipeline_outcome _ _ _ _ _)
  | null => simp [Json.truthy] at h2
  | bool b =>
      simp [bodyObjWhenTruthy, Json.truthy] at hbody
      simp [Json.truthy, hbody] at h2
  | num n =>
      simp [bodyObjWhenTruthy, Json.truthy] at hbody
      simp [Json.truthy, hbody] at h2
  | str sv =>
      simp [bodyObjWhenTruthy, Json.truthy] at hbody
      simp [Json.truthy, hbody] at h2
  | arr es =>
      simp [bodyObjWhenTruthy, Json.truthy] at hbody
      simp [Json.truthy, hbody] at h2

/-- C1 witness: on the all-success world the handler produces one valid
outcome. -/
theorem c1_single_outcome_witness :
    isSingleValidOutcome (generateAvatarVideo okWorld emptyFs).result = true :=
  c1_single_outcome okWorld emptyFs rfl

/-- C1 counterexample: a request whose body is the JSON list `[1]` (with the
token configured) makes the handler raise an uncaught AttributeError at
`request_json.get(...)`, so it produces neither a 200 nor a 400/404/500
response, refuting the claim as stated for every request. -/
theorem c1_single_outcome_counterexample :
    isSingleValidOutcome (generateAvatarVideo listBodyWorld emptyFs).result = false
      ∧ (generateAvatarVideo listBodyWorld emptyFs).result =
          .error "\x27list\x27 object has no attribute \x27get\x27" :=
  ⟨rfl, rfl⟩

/-- C2: when the token is set, the request is a valid JSON object with
non-empty string `script_text` and `avatar_id` and a string `user_id`, and
all six external collaborators succeed (lip-sync and upload returning
non-empty locators), the 200 response carries exactly the published URL and
a metadata document is attempted in the "video_creations" collection whose
userId, videoUrl, scriptText, avatarId match the request and the published
URL, with status "completed". -/
theorem c2_success_payload_and_metadata (w : World) (fs0 : Fs)
    (tok stx av uid rurl url : String) (kvs : List (String × Json))
    (htok : w.replicateApiToken = some tok) (htok0 : tok ≠ "")
    (hbody : w.requestJson = some (Json.obj kvs))
    (hst : Json.get? (Json.obj kvs) "script_text" = some (.str stx)) (hstx : stx ≠ "")
    (hav : Json.get? (Json.obj kvs) "avatar_id" = some (.str av)) (hav0 : av ≠ "")
    (hu : Json.get? (Json.obj kvs) "user_id" = some (.str uid))
    (hci : w.clientInit = .ok)
    (hdl : w.download = .ok) (htts : w.tts = .ok)
    (hls : w.lipSync = .ok (some rurl)) (hrurl : rurl ≠ "")
    (hfv : w.fetchVideo = .ok)
    (hup : w.upload = .ok url) (hurl : url ≠ "")
    (hfs : w.firestore = .ok) :
    (generateAvatarVideo w fs0).result =
        .ok { body := .payload "Video generated successfully!" url, status := 200 }
      ∧ (generateAvatarVideo w fs0).meta =
        some { collection := "video_creations", userId := .str uid, videoUrl := url,
               scriptText := .str stx, avatarId := .str av,
               createdAtServerTimestamp := true, status := "completed" } := by
  obtain ⟨tokf, bodyf, hdr, n1, n2, ci, dl, tt, ls, fv, up, fo, ra, rb, rc⟩ := w
  simp only at htok hbody hci hdl htts hls hfv hup hfs
  subst htok hbody hci hdl htts hls hfv hup hfs
  have hne := Json.get?_obj_ne_nil hst
  constructor <;>
    simp [generateAvatarVideo, runPipeline, exceptToResponse, download_avatar_image,
      generate_tts_audio, perform_lip_sync, download_replicate_video,
      upload_to_firebase_storage, save_metadata_to_firestore, strOptTruthy, Json.truthy,
      Json.pyStr, htok0, hne, hst, hstx, hav, hav0, hu, hrurl, hurl]

/-- C2 witness: the all-success world yields the published URL and the
matching metadata document. -/
theorem c2_success_payload_and_metadata_witness :
    (generateAvatarVideo okWorld emptyFs).result =
        .ok { body := .payload "Video generated successfully!" "https://storage.googleapis.com/b/final.mp4", status := 200 }
      ∧ (generateAvatarVideo okWorld emptyFs).meta =
        some { collection := "video_creations", userId := .str "u1",
               videoUrl := "https://storage.googleapis.com/b/final.mp4",
               scriptText := .str "Hello world", avatarId := .str "alice.png",
               createdAtServerTimestamp := true, status := "completed" } :=
  c2_success_payload_and_metadata okWorld emptyFs "tok" "Hello world" "alice.png" "u1"
    "https://replicate.delivery/out.mp4" "https://storage.googleapis.com/b/final.mp4"
    (sampleFields "alice.png") rfl (by decide) rfl rfl (by decide) rfl (by decide) rfl
    rfl rfl rfl rfl (by decide) rfl rfl (by decide) rfl

/-- C3: for a request that reaches the publish stage (valid string fields,
token set, clients built, stages one to four succeeding), the destination
storage path is exactly `generated_videos/<user_id>/<YYYYMMDD_HHMMSS>_<base>.mp4`
where the timestamp is `strftimeUpload` of the clock at upload time (which
depends only on the fields down to the second, as the second conjunct
states) and `base` is `avatar_id` truncated at its first dot (with the
claim\x27s example evaluated in the third conjunct). -/
theorem c3_storage_path_format (w : World) (fs0 : Fs)
    (tok stx av uid rurl : String) (kvs : List (String × Json))
    (htok : w.replicateApiToken = some tok) (htok0 : tok ≠ "")
    (hbody : w.requestJson = some (Json.obj kvs))
    (hst : Json.get? (Json.obj kvs) "script_text" = some (.str stx)) (hstx : stx ≠ "")
    (hav : Json.get? (Json.obj kvs) "avatar_id" = some (.str av)) (hav0 : av ≠ "")
    (hu : Json.get? (Json.obj kvs) "user_id" = some (.str uid))
    (hci : w.clientInit = .ok)
    (hdl : w.download = .ok) (htts : w.tts = .ok)
    (hls : w.lipSync = .ok (some rurl)) (hrurl : rurl ≠ "")
    (hfv : w.fetchVideo = .ok) :
    (generateAvatarVideo w fs0).uploadPath =
        some ("generated_videos/" ++ uid ++ "/" ++ strftimeUpload w.nowAtUpload ++ "_" ++
          pySplitDotHead av ++ ".mp4")
      ∧ (∀ t t' : DateTime, t.year = t'.year → t.month = t'.month → t.day = t'.day →
          t.hour = t'.hour → t.minute = t'.minute → t.second = t'.second →
          strftimeUpload t = strftimeUpload t')
      ∧ pySplitDotHead "alice.png" = "alice" := by
  obtain ⟨tokf, bodyf, hdr, n1, n2, ci, dl, tt, ls, fv, up, fo, ra, rb, rc⟩ := w
  simp only at htok hbody hci hdl htts hls hfv ⊢
  subst htok hbody hci hdl htts hls hfv
  have hne := Json.get?_obj_ne_nil hst
  refine ⟨?_, ?_, ?_⟩
  · cases up with
    | ok url =>
        by_cases hu0 : url = "" <;>
          simp [generateAvatarVideo, runPipeline, exceptToResponse, download_avatar_image,
            generate_tts_audio, perform_lip_sync, download_replicate_video,
            upload_to_firebase_storage, save_metadata_to_firestore, strOptTruthy,
            Json.truthy, Json.pyStr, htok0, hne, hst, hstx, hav, hav0, hu, hrurl, hu0,
            ← String.append_assoc]
    | err m =>
        simp [generateAvatarVideo, runPipeline, exceptToResponse, download_avatar_image,
          generate_tts_audio, perform_lip_sync, download_replicate_video,
          upload_to_firebase_storage, save_metadata_to_firestore, strOptTruthy,
          Json.truthy, Json.pyStr, htok0, hne, hst, hstx, hav, hav0, hu, hrurl,
          ← String.append_assoc]
  · intro t t' h1 h2 h3 h4 h5 h6
    simp [strftimeUpload, h1, h2, h3, h4, h5, h6]
  · decide

/-- C3 witness: the spec scenario gives path
`generated_videos/u1/20250601_123045_alice.mp4`. -/
theorem c3_storage_path_format_witness :
    (generateAvatarVideo okWorld emptyFs).uploadPath =
      some "generated_videos/u1/20250601_123045_alice.mp4" := by
  have h := (c3_storage_path_format okWorld emptyFs "tok" "Hello world" "alice.png" "u1"
    "https://replicate.delivery/out.mp4" (sampleFields "alice.png") rfl (by decide) rfl
    rfl (by decide) rfl (by decide) rfl rfl rfl rfl rfl (by decide) rfl).1
  simpa using h

/-- C4: with the token configured, a request whose body is not parseable
JSON, or whose script_text is missing or the empty string, or whose
avatar_id is missing or the empty string, is answered with one of the three
400 messages, and is rejected before any external collaborator call, before
any temp file changes, and before any metadata attempt. -/
theorem c4_validation_rejects_before_calls (w : World) (fs0 : Fs) (tok : String)
    (htok : w.replicateApiToken = some tok) (htok0 : tok ≠ "")
    (h : w.requestJson = none ∨
         ∃ kvs, w.requestJson = some (Json.obj kvs) ∧
           (Json.get? (Json.obj kvs) "script_text" = none ∨
            Json.get? (Json.obj kvs) "script_text" = some (.str "") ∨
            Json.get? (Json.obj kvs) "avatar_id" = none ∨
            Json.get? (Json.obj kvs) "avatar_id" = some (.str ""))) :
    ((generateAvatarVideo w fs0).result = .ok { body := .text "Invalid request: No JSON payload.", status := 400 }
      ∨ (generateAvatarVideo w fs0).result = .ok { body := .text "Invalid request: \x27script_text\x27 cannot be empty or is missing.", status := 400 }
      ∨ (generateAvatarVideo w fs0).result = .ok { body := .text "Invalid request: \x27avatar_id\x27 cannot be empty or is missing.", status := 400 })
      ∧ (generateAvatarVideo w fs0).calls = Calls.none
      ∧ (generateAvatarVideo w fs0).fs = fs0
      ∧ (generateAvatarVideo w fs0).meta = none := by
  obtain ⟨tokf, bodyf, hdr, n1, n2, ci, dl, tt, ls, fv, up, fo, ra, rb, rc⟩ := w
  simp only at htok h
  subst htok
  rcases h with h | ⟨kvs, hbody, hcase⟩
  · subst h
    simp [generateAvatarVideo, strOptTruthy, htok0]
  · subst hbody
    by_cases hemp : kvs.isEmpty
    · simp [generateAvatarVideo, strOptTruthy, Json.truthy, htok0, hemp]
    · simp only [Bool.not_eq_true] at hemp
      have htr : (Json.obj kvs).truthy = true := by simp [Json.truthy, hemp]
      have hnull : Json.truthy Json.null = false := rfl
      have hempty : Json.truthy (Json.str "") = false := rfl
      rcases hcase with hc | hc | hc | hc
      · simp [generateAvatarVideo, strOptTruthy, htok0, htr, hnull, hc]
      · simp [generateAvatarVideo, strOptTruthy, htok0, htr, hempty, hc]
      all_goals
        rcases Bool.eq_false_or_eq_true
          (((Json.get? (Json.obj kvs) "script_text").getD Json.null).truthy) with hsc | hsc
      all_goals
        simp [generateAvatarVideo, strOptTruthy, htok0, htr, hnull, hempty, hc, hsc]

/-- C4 witness: a body missing script_text is rejected with 400, no calls,
no file changes, no metadata attempt. -/
theorem c4_validation_rejects_before_calls_witness :
    ((generateAvatarVideo missingScriptWorld emptyFs).result = .ok { body := .text "Invalid request: No JSON payload.", status := 400 }
      ∨ (generateAvatarVideo missingScriptWorld emptyFs).result = .ok { body := .text "Invalid request: \x27script_text\x27 cannot be empty or is missing.", status := 400 }
      ∨ (generateAvatarVideo missingScriptWorld emptyFs).result = .ok { body := .text "Invalid request: \x27avatar_id\x27 cannot be empty or is missing.", status := 400 })
      ∧ (generateAvatarVideo missingScriptWorld emptyFs).calls = Calls.none
      ∧ (generateAvatarVideo missingScriptWorld emptyFs).fs = emptyFs
      ∧ (generateAvatarVideo missingScriptWorld emptyFs).meta = none :=
  c4_validation_rejects_before_calls missingScriptWorld emptyFs "tok" rfl (by decide)
    (Or.inr ⟨[("avatar_id", Json.str "alice.png")], rfl, Or.inl rfl⟩)

/-- C5: when a valid request\x27s avatar is absent from the content store
(the download signals not-found), the handler answers 404 with a message
naming the missing path `avatars/default/<avatar_id>`. -/
theorem c5_avatar_not_found_404 (w : World) (fs0 : Fs) (tok stx av : String)
    (kvs : List (String × Json)) (leftover : Bool)
    (htok : w.replicateApiToken = some tok) (htok0 : tok ≠ "")
    (hbody : w.requestJson = some (Json.obj kvs))
    (hst : Json.get? (Json.obj kvs) "script_text" = some (.str stx)) (hstx : stx ≠ "")
    (hav : Json.get? (Json.obj kvs) "avatar_id" = some (.str av)) (hav0 : av ≠ "")
    (hci : w.clientInit = .ok)
    (hdl : w.download = .notFound leftover) :
    (generateAvatarVideo w fs0).result =
      .ok { body := .text ("Avatar image not found at \x27avatars/default/" ++ av ++ "\x27."),
            status := 404 } := by
  obtain ⟨tokf, bodyf, hdr, n1, n2, ci, dl, tt, ls, fv, up, fo, ra, rb, rc⟩ := w
  simp only at htok hbody hci hdl
  subst htok hbody hci hdl
  have hne := Json.get?_obj_ne_nil hst
  simp [generateAvatarVideo, runPipeline, exceptToResponse, download_avatar_image,
    strOptTruthy, Json.truthy, Json.pyStr, htok0, hne, hst, hstx, hav, hav0,
    ← String.append_assoc]

/-- C5 witness: avatar_id "ghost.png" yields a 404 naming
`avatars/default/ghost.png`. -/
theorem c5_avatar_not_found_404_witness :
    (generateAvatarVideo ghostWorld emptyFs).result =
      .ok { body := .text "Avatar image not found at \x27avatars/default/ghost.png\x27.",
            status := 404 } :=
  c5_avatar_not_found_404 ghostWorld emptyFs "tok" "Hello world" "ghost.png"
    (sampleFields "ghost.png") false rfl (by decide) rfl rfl (by decide) rfl (by decide)
    rfl rfl

/-- C6: when every stage through video publication succeeds but the
Firestore metadata insert raises, the handler still answers 200 with the
published URL; the metadata failure never changes the outcome. -/
theorem c6_metadata_failure_nonfatal (w : World) (fs0 : Fs)
    (tok stx av rurl url m : String) (kvs : List (String × Json))
    (htok : w.replicateApiToken = some tok) (htok0 : tok ≠ "")
    (hbody : w.requestJson = some (Json.obj kvs))
    (hst : Json.get? (Json.obj kvs) "script_text" = some (.str stx)) (hstx : stx ≠ "")
    (hav : Json.get? (Json.obj kvs) "avatar_id" = some (.str av)) (hav0 : av ≠ "")
    (hci : w.clientInit = .ok)
    (hdl : w.download = .ok) (htts : w.tts = .ok)
    (hls : w.lipSync = .ok (some rurl)) (hrurl : rurl ≠ "")
    (hfv : w.fetchVideo = .ok)
    (hup : w.upload = .ok url) (hurl : url ≠ "")
    (hfs : w.firestore = .err m) :
    (generateAvatarVideo w fs0).result =
      .ok { body := .payload "Video generated successfully!" url, status := 200 } := by
  obtain ⟨tokf, bodyf, hdr, n1, n2, ci, dl, tt, ls, fv, up, fo, ra, rb, rc⟩ := w
  simp only at htok hbody hci hdl htts hls hfv hup hfs
  subst htok hbody hci hdl htts hls hfv hup hfs
  have hne := Json.get?_obj_ne_nil hst
  simp [generateAvatarVideo, runPipeline, exceptToResponse, download_avatar_image,
    generate_tts_audio, perform_lip_sync, download_replicate_video,
    upload_to_firebase_storage, save_metadata_to_firestore, strOptTruthy, Json.truthy,
    Json.pyStr, htok0, hne, hst, hstx, hav, hav0, hrurl, hurl]

/-- C6 witness: with only Firestore failing, the response is still the 200
payload with the published URL. -/
theorem c6_metadata_failure_nonfatal_witness :
    (generateAvatarVideo firestoreDownWorld emptyFs).result =
      .ok { body := .payload "Video generated successfully!" "https://storage.googleapis.com/b/final.mp4",
            status := 200 } :=
  c6_metadata_failure_nonfatal firestoreDownWorld emptyFs "tok" "Hello world" "alice.png"
    "https://replicate.delivery/out.mp4" "https://storage.googleapis.com/b/final.mp4"
    "firestore down" (sampleFields "alice.png") rfl (by decide) rfl rfl (by decide) rfl
    (by decide) rfl rfl rfl rfl (by decide) rfl rfl (by decide) rfl

/-- C7: for every invocation that reaches the pipeline, if no `os.remove`
raises then no temporary file remains afterwards (whatever the collaborators
did and whatever files existed before); and for every invocation whatsoever,
the response is identical to the one produced when every removal succeeds —
cleanup failures never change the response. -/
theorem c7_cleanup_total_and_response_independent (w : World) (fs0 : Fs) :
    (reachesPipeline w = true → w.rmAvatarFails = false → w.rmAudioFails = false →
        w.rmVideoFails = false →
        (generateAvatarVideo w fs0).fs = { avatarExists := false, audioExists := false, videoExists := false })
    ∧ (generateAvatarVideo w fs0).result =
        (generateAvatarVideo { w with rmAvatarFails := false, rmAudioFails := false, rmVideoFails := false } fs0).result := by
  obtain ⟨tokf, bodyf, hdr, n1, n2, ci, dl, tt, ls, fv, up, fo, ra, rb, rc⟩ := w
  constructor
  · intro h ha hb hc
    simp only at ha hb hc
    subst ha hb hc
    simp only [reachesPipeline, validatedBody, InitOutcome.isOk, Bool.and_eq_true] at h
    obtain ⟨⟨h1, h2⟩, h3⟩ := h
    cases bodyf with
    | none => simp at h2
    | some j =>
      cases j with
      | obj kvs =>
        simp only [Bool.and_eq_true] at h2
        obtain ⟨⟨htr, hsc⟩, hava⟩ := h2
        cases ci with
        | err m => simp at h3
        | ok =>
          simp [generateAvatarVideo, h1, htr, hsc, hava, cleanupTempFiles]
      | null => simp at h2
      | bool b => simp at h2
      | num n => simp at h2
      | str sv => simp at h2
      | arr es => simp at h2
  · cases h1 : strOptTruthy tokf with
    | false => simp [generateAvatarVideo, h1]
    | true =>
    cases bodyf with
    | none => simp [generateAvatarVideo, h1]
    | some j =>
    cases h2 : j.truthy with
    | false => simp [generateAvatarVideo, h1, h2]
    | true =>
    cases j with
    | obj kvs =>
        cases h3 : (((Json.obj kvs).get? "script_text").getD Json.null).truthy with
        | false => simp [generateAvatarVideo, h1, h2, h3]
        | true =>
        cases h4 : (((Json.obj kvs).get? "avatar_id").getD Json.null).truthy with
        | false => simp [generateAvatarVideo, h1, h2, h3, h4]
        | true =>
        cases ci with
        | err m => simp [generateAvatarVideo, h1, h2, h3, h4]
        | ok =>
            simp only [generateAvatarVideo, h1, h2, h3, h4, Bool.not_true, Bool.not_false,
              if_false, if_true]
            rfl
    | null => simp [generateAvatarVideo, h1, h2]
    | bool b => simp [generateAvatarVideo, h1, h2]
    | num n => simp [generateAvatarVideo, h1, h2]
    | str sv => simp [generateAvatarVideo, h1, h2]
    | arr es => simp [generateAvatarVideo, h1, h2]

/-- C7 witness: on the all-success world, after the invocation no temporary
file remains. -/
theorem c7_cleanup_total_and_response_independent_witness :
    (generateAvatarVideo okWorld emptyFs).fs =
      { avatarExists := false, audioExists := false, videoExists := false } :=
  (c7_cleanup_total_and_response_independent okWorld emptyFs).1 rfl rfl rfl rfl

/-- C8: when REPLICATE_API_TOKEN is absent from the environment, every
request — the body being arbitrary, including malformed ones — is answered
with the 500 configuration-error message, before validation, before any
collaborator call, before any file change and before any metadata attempt. -/
theorem c8_missing_token_500_before_validation (w : World) (fs0 : Fs)
    (h : w.replicateApiToken = none) :
    (generateAvatarVideo w fs0).result =
        .ok { body := .text "Configuration error: Replicate API token not found.", status := 500 }
      ∧ (generateAvatarVideo w fs0).calls = Calls.none
      ∧ (generateAvatarVideo w fs0).fs = fs0
      ∧ (generateAvatarVideo w fs0).meta = none := by
  obtain ⟨tokf, bodyf, hdr, n1, n2, ci, dl, tt, ls, fv, up, fo, ra, rb, rc⟩ := w
  simp only at h
  subst h
  exact ⟨rfl, rfl, rfl, rfl⟩

/-- C8 witness: with the token unset and a malformed (non-JSON) body, the
answer is the 500 configuration error, not a 400. -/
theorem c8_missing_token_500_before_validation_witness :
    (generateAvatarVideo noTokenBadBodyWorld emptyFs).result =
        .ok { body := .text "Configuration error: Replicate API token not found.", status := 500 }
      ∧ (generateAvatarVideo noTokenBadBodyWorld emptyFs).calls = Calls.none
      ∧ (generateAvatarVideo noTokenBadBodyWorld emptyFs).fs = emptyFs
      ∧ (generateAvatarVideo noTokenBadBodyWorld emptyFs).meta = none :=
  c8_missing_token_500_before_validation noTokenBadBodyWorld emptyFs rfl

/-- C9: when the lip-sync invocation completes without raising but returns
no locator (Python `None` or an empty string), the handler fails the request
with HTTP 500 (the wrapped invariant-violation message). -/
theorem c9_lipsync_empty_output_500 (w : World) (fs0 : Fs) (tok stx av : String)
    (kvs : List (String × Json)) (out : Option String)
    (htok : w.replicateApiToken = some tok) (htok0 : tok ≠ "")
    (hbody : w.requestJson = some (Json.obj kvs))
    (hst : Json.get? (Json.obj kvs) "script_text" = some (.str stx)) (hstx : stx ≠ "")
    (hav : Json.get? (Json.obj kvs) "avatar_id" = some (.str av)) (hav0 : av ≠ "")
    (hci : w.clientInit = .ok)
    (hdl : w.download = .ok) (htts : w.tts = .ok)
    (hls : w.lipSync = .ok out) (hout : out = none ∨ out = some "") :
    (generateAvatarVideo w fs0).result =
      .ok { body := .text "Lip-sync process failed: Lip-sync process did not return a video URL from Replicate.",
            status := 500 } := by
  obtain ⟨tokf, bodyf, hdr, n1, n2, ci, dl, tt, ls, fv, up, fo, ra, rb, rc⟩ := w
  simp only at htok hbody hci hdl htts hls
  subst htok hbody hci hdl htts hls
  have hne := Json.get?_obj_ne_nil hst
  rcases hout with h | h <;> subst h <;>
    simp [generateAvatarVideo, runPipeline, exceptToResponse, download_avatar_image,
      generate_tts_audio, perform_lip_sync, strOptTruthy, Json.truthy, Json.pyStr,
      htok0, hne, hst, hstx, hav, hav0]

/-- C9 witness: a `None` output from the lip-sync call yields the 500. -/
theorem c9_lipsync_empty_output_500_witness :
    (generateAvatarVideo noOutputWorld emptyFs).result =
      .ok { body := .text "Lip-sync process failed: Lip-sync process did not return a video URL from Replicate.",
            status := 500 } :=
  c9_lipsync_empty_output_500 noOutputWorld emptyFs "tok" "Hello world" "alice.png"
    (sampleFields "alice.png") none rfl (by decide) rfl rfl (by decide) rfl (by decide)
    rfl rfl rfl rfl (Or.inl rfl)

/-- C10: with the token configured, a body that parses to a falsy JSON value
(in particular the empty object) is rejected with 400 and the message
"Invalid request: No JSON payload.", exactly as a missing or non-JSON body
would be, not as a missing script_text field. -/
theorem c10_falsy_json_payload_400 (w : World) (fs0 : Fs) (tok : String) (j : Json)
    (htok : w.replicateApiToken = some tok) (htok0 : tok ≠ "")
    (hbody : w.requestJson = some j) (hj : j.truthy = false) :
    (generateAvatarVideo w fs0).result =
      .ok { body := .text "Invalid request: No JSON payload.", status := 400 } := by
  obtain ⟨tokf, bodyf, hdr, n1, n2, ci, dl, tt, ls, fv, up, fo, ra, rb, rc⟩ := w
  simp only at htok hbody
  subst htok hbody
  simp [generateAvatarVideo, strOptTruthy, htok0, hj]

/-- C10 witness: the empty JSON object body is answered with the
no-payload 400 message. -/
theorem c10_falsy_json_payload_400_witness :
    (generateAvatarVideo emptyBodyWorld emptyFs).result =
      .ok { body := .text "Invalid request: No JSON payload.", status := 400 } :=
  c10_falsy_json_payload_400 emptyBodyWorld emptyFs "tok" (Json.obj []) rfl (by decide)
    rfl rfl
